import Mathlib

/-!
Shallow embedding of the room/photo data-synchronization workflow of the
snap-sync-room repository.

Sources embedded here:
* `src/src/pages/Room.tsx` — `loadRoomData` (room fetch + access gate),
  `loadPhotos` (photo listing with malformed-record skipping),
  `handleFileUpload` / `uploadPhoto` (inline-payload batch upload with the
  750KB limit and the batch `photoCount` increment), and
  `handleLikeDislike` (the like/dislike reaction state machine).
* `src/unnamed/part_000` — the Firestore `createRoom` variant (the one that
  writes a room record).
* `src/src/pages/Index.tsx` — the mock `createRoom` variant (writes no
  record; only navigates).

Modelling conventions:
* Firestore documents are structures whose fields are `Option`-typed where
  the source reads them defensively (`data.x || d`, `!data.x`).
* JavaScript string falsiness (`!s` is true for `undefined` and for `""`)
  is modelled by `jsStrTruthy` on `Option String`.
* Timestamps are `Nat` values passed in explicitly where the source calls
  `new Date()`.  A raw photo's `uploadedAt` field is
  `Option (Option Nat)`: `none` = field absent/falsy, `some none` = field
  present but `toDate()` throws (unparseable), `some (some t)` = parses
  to `t`.
* JavaScript `String.prototype.trim` and `String.prototype.startsWith`
  are embedded as `jsTrim` and `strStartsWith` over the character list,
  because they must be executable by the kernel on concrete inputs.
* Fallible operations return `Option`: `none` models "rejected, nothing
  written to the store".
-/

/-- JS truthiness of an optional string field: `undefined`/missing and the
empty string are falsy (the source tests fields with `!data.field` and
`data.field || d`). -/
def jsStrTruthy : Option String → Bool
  | none => false
  | some s => !(s == "")

/-- JS `data.field || d` for an optional string field: falsy values
(missing, empty) fall back to the default `d`. -/
def jsOrStr (o : Option String) (d : String) : String :=
  match o with
  | none => d
  | some s => if s == "" then d else s

/-- JS `String.prototype.trim`, embedded over the character list so the
kernel can evaluate it (drops leading and trailing whitespace). -/
def jsTrim (s : String) : String :=
  String.mk (((s.data.dropWhile Char.isWhitespace).reverse.dropWhile Char.isWhitespace).reverse)

/-- JS `String.prototype.startsWith`, embedded over the character list so
the kernel can evaluate it. -/
def strStartsWith (s pre : String) : Bool :=
  pre.data.isPrefixOf s.data

def emptyStr : String := ""

/-! ## Rooms -/

/-- Raw Firestore room document, as read by `loadRoomData`
(`src/src/pages/Room.tsx` lines 78-85).  Every field may be absent. -/
structure RawRoom where
  name : Option String
  isPrivate : Option Bool
  password : Option String
  photoCount : Option Int
  deriving DecidableEq

/-- The `RoomData` object built by `loadRoomData`
(`src/src/pages/Room.tsx` lines 79-85): `name` defaults to
"Unnamed Room", `isPrivate` to `false`, `photoCount` to `0`;
`password` is kept as-is (possibly absent). -/
structure RoomData where
  name : String
  isPrivate : Bool
  password : Option String
  photoCount : Int
  deriving DecidableEq

def unnamedRoomStr : String := "Unnamed Room"

/-- Field defaulting performed by `loadRoomData`
(`src/src/pages/Room.tsx` lines 79-85). -/
def roomFromRaw (d : RawRoom) : RoomData :=
  { name := jsOrStr d.name unnamedRoomStr
    isPrivate := d.isPrivate.getD false
    password := d.password
    photoCount := d.photoCount.getD 0 }

/-- The access gate of `loadRoomData` (`src/src/pages/Room.tsx` lines
87-98): a non-private room always passes; a private room passes iff the
attempted secret (possibly absent) is exactly equal to the stored
`password` field (possibly absent) — the source tests
`passwordAttempt !== room.password`, plain JS strict equality, so the
comparison is case-sensitive, untrimmed, and `undefined === undefined`
holds. -/
def checkAccess (room : RoomData) (attempt : Option String) : Bool :=
  if room.isPrivate then decide (attempt = room.password) else true

/-- Outcome of loading a room (`loadRoomData` in
`src/src/pages/Room.tsx`): missing document → redirect ("Room not
found"); failed gate → redirect ("Incorrect password"); otherwise the
room is opened and its photos are fetched. -/
inductive LoadResult where
  | notFound
  | accessDenied
  | ready (room : RoomData)
  deriving DecidableEq

/-- Control flow of `loadRoomData` (`src/src/pages/Room.tsx` lines
64-113), with the remote fetch abstracted as the `stored` argument. -/
def loadRoomData (stored : Option RawRoom) (attempt : Option String) : LoadResult :=
  match stored with
  | none => LoadResult.notFound
  | some d =>
    let room := roomFromRaw d
    if checkAccess room attempt then LoadResult.ready room else LoadResult.accessDenied

/-- Room record written by the Firestore `createRoom` variant
(`src/unnamed/part_000` lines 394-440): `name` is stored trimmed,
`password` is the given (untrimmed) secret when private and `null`
otherwise, `photoCount` starts at `0`. -/
structure RoomRecord where
  name : String
  isPrivate : Bool
  password : Option String
  createdAt : Nat
  photoCount : Int
  deriving DecidableEq

/-- The Firestore `createRoom` variant (`src/unnamed/part_000` lines
394-440).  Returns `none` (no record written, error toast) when the name
trims to empty, or when the room is private and the secret trims to
empty; otherwise returns the record written by `addDoc`. -/
def createRoom (t : Nat) (roomName pw : String) (isPriv : Bool) : Option RoomRecord :=
  if jsTrim roomName == emptyStr then none
  else if isPriv && (jsTrim pw == emptyStr) then none
  else some { name := jsTrim roomName
              isPrivate := isPriv
              password := if isPriv then some pw else none
              createdAt := t
              photoCount := 0 }

/-- Navigation state produced by the mock `createRoom` variant
(`src/src/pages/Index.tsx` lines 16-28).  This variant writes no room
record at all; it only navigates with this state. -/
structure MockRoomNav where
  name : String
  isPrivate : Bool
  password : Option String
  deriving DecidableEq

/-- The mock `createRoom` variant (`src/src/pages/Index.tsx` lines
16-28): returns `none` (no navigation, nothing written) when the name
trims to empty; the password is not validated inside the function (the
private-room button in the same file is disabled unless both name and
password trim non-empty). -/
def mockCreateRoom (roomName pw : String) (isPriv : Bool) : Option MockRoomNav :=
  if jsTrim roomName == emptyStr then none
  else some { name := roomName
              isPrivate := isPriv
              password := if isPriv then some pw else none }

/-! ## Photo records and listing -/

/-- A viewer's reaction choice ("like" / "dislike" strings in the
source). -/
inductive ReactAction where
  | like
  | dislike
  deriving DecidableEq

/-- Raw Firestore photo document, as read by `loadPhotos`
(`src/src/pages/Room.tsx` lines 125-163).  `uploadedAt` is
`Option (Option Nat)`: `none` = field absent/falsy (`!data.uploadedAt`),
`some none` = present but `toDate()` throws, `some (some t)` =
timestamp `t`. -/
structure RawPhoto where
  id : String
  base64 : Option String
  name : Option String
  uploadedAt : Option (Option Nat)
  uploader : Option String
  likeCount : Option Int
  dislikeCount : Option Int
  deriving DecidableEq

/-- The validity check of `loadPhotos` (`src/src/pages/Room.tsx` lines
129-133): `if (!data.base64 || !data.name || !data.uploadedAt) continue`.
Under JS falsiness a present-but-empty `base64` or `name` string also
fails the check. -/
def isValidRecord (r : RawPhoto) : Bool :=
  jsStrTruthy r.base64 && jsStrTruthy r.name && r.uploadedAt.isSome

/-- Photo list entry built by `loadPhotos` (the `Photo` interface of
`src/src/pages/Room.tsx` lines 32-41). -/
structure PhotoView where
  id : String
  base64 : String
  name : String
  uploadedAt : Nat
  uploader : String
  likeCount : Int
  dislikeCount : Int
  userAction : Option ReactAction
  deriving DecidableEq

def anonStr : String := "Anonymous"

/-- Processing of one raw photo document by the `loadPhotos` loop
(`src/src/pages/Room.tsx` lines 125-163): invalid records are skipped
(`none`); a present-but-unparseable timestamp falls back to the current
time `now`; `uploader` defaults to "Anonymous"; counters default to `0`;
`userAction` is the viewer's reaction as fetched from the photo's
`likes` subcollection (`ua` abstracts that fetch; a missing reaction
document, a `null` action, and a failed fetch all yield `none`). -/
def processRecord (now : Nat) (ua : String → Option ReactAction) (r : RawPhoto) :
    Option PhotoView :=
  if isValidRecord r then
    some { id := r.id
           base64 := r.base64.getD emptyStr
           name := r.name.getD emptyStr
           uploadedAt := match r.uploadedAt with
             | some (some ts) => ts
             | _ => now
           uploader := jsOrStr r.uploader anonStr
           likeCount := r.likeCount.getD 0
           dislikeCount := r.dislikeCount.getD 0
           userAction := ua r.id }
  else none

/-- Sort key used to model the store's ordered query
(`orderBy("uploadedAt", "desc")` in `loadPhotos`,
`src/src/pages/Room.tsx` lines 118-121). -/
def sortKey (r : RawPhoto) : Nat :=
  match r.uploadedAt with
  | some (some ts) => ts
  | _ => 0

/-- Descending-by-upload-time order requested by the `loadPhotos` query. -/
def byTimeDesc (a b : RawPhoto) : Prop := sortKey b ≤ sortKey a

instance : DecidableRel byTimeDesc := fun a b => Nat.decLe (sortKey b) (sortKey a)

instance : IsTotal RawPhoto byTimeDesc := ⟨fun a b => Nat.le_total (sortKey b) (sortKey a)⟩

instance : IsTrans RawPhoto byTimeDesc := ⟨fun _ _ _ hab hbc => Nat.le_trans hbc hab⟩

/-- The store's ordered listing of a room's photo documents, newest
first (the external query contract requested by `loadPhotos`). -/
def listQuery (docs : List RawPhoto) : List RawPhoto :=
  List.insertionSort byTimeDesc docs

/-- `loadPhotos` (`src/src/pages/Room.tsx` lines 115-175): reads the
room's photo documents newest-first and processes each one, skipping
invalid records. -/
def loadPhotos (now : Nat) (ua : String → Option ReactAction) (docs : List RawPhoto) :
    List PhotoView :=
  (listQuery docs).filterMap (processRecord now ua)

/-! ## Uploads -/

/-- The data of a browser `File` relevant to the upload handler:
filename, MIME type, byte size, and (abstracted) content. -/
structure FileMeta where
  name : String
  ftype : String
  size : Nat
  content : String
  deriving DecidableEq

def imageMime : String := "image/"

def dataColon : String := "data:"

def b64Marker : String := ";base64,"

/-- The data URL produced by `FileReader.readAsDataURL` in `uploadPhoto`
(`src/src/pages/Room.tsx` lines 226-248), abstracted: it always has the
non-empty `data:<mime>;base64,` shape. -/
def dataURL (f : FileMeta) : String :=
  dataColon ++ f.ftype ++ b64Marker ++ f.content

/-- The photo document written by `uploadPhoto`
(`src/src/pages/Room.tsx` lines 232-239): inline payload, original
filename, upload time, fixed "Anonymous" uploader, both counters `0`.
The store-assigned document id is opaque and never inspected by the
verified properties, so it is left empty here. -/
def mkPhotoRecord (t : Nat) (f : FileMeta) : RawPhoto :=
  { id := emptyStr
    base64 := some (dataURL f)
    name := some f.name
    uploadedAt := some (some t)
    uploader := some anonStr
    likeCount := some 0
    dislikeCount := some 0 }

/-- The per-file filter of `handleFileUpload` (`src/src/pages/Room.tsx`
lines 184-197, identically in `handleDrop` lines 258-271): a file is
uploaded iff its MIME type starts with "image/" and its size does not
exceed 750KB (`file.size > 750 * 1024` is rejected with a toast and
skipped; non-image files are skipped silently). -/
def fileAccepted (f : FileMeta) : Bool :=
  strStartsWith f.ftype imageMime && decide (f.size ≤ 750 * 1024)

/-- Remote state touched by an upload batch: the room's `photoCount`
field and its photo subcollection. -/
structure RoomStore where
  photoCount : Int
  photos : List RawPhoto
  deriving DecidableEq

/-- `handleFileUpload` (`src/src/pages/Room.tsx` lines 177-224) on the
success path: every accepted file's document is written by `uploadPhoto`,
then the room's `photoCount` is incremented once by the number of
accepted files (`increment(uploadPromises.length)`, a single batch
increment).  The batch timestamp `t` stands for the `new Date()` calls
of the batch. -/
def handleFileUpload (store : RoomStore) (t : Nat) (files : List FileMeta) : RoomStore :=
  let accepted := files.filter fileAccepted
  { photoCount := store.photoCount + accepted.length
    photos := store.photos ++ accepted.map (mkPhotoRecord t) }

/-! ## Reactions -/

/-- A reaction document in a photo's `likes` subcollection: `action` is
"like", "dislike", or `null` (written as `null` on toggle-off — the
document itself is never deleted); `timestamp` is set on every write. -/
structure LikeDoc where
  action : Option ReactAction
  timestamp : Nat
  deriving DecidableEq

/-- Remote state of one photo touched by `handleLikeDislike`: the two
denormalized counters on the photo document (Firestore numbers, so
integers that `increment(-1)` could in principle drive negative) and the
`likes` subcollection keyed by user id. -/
structure ReactionState where
  likeCount : Int
  dislikeCount : Int
  likes : List (String × LikeDoc)
  deriving DecidableEq

/-- Fetch of the viewer's reaction document (`getDocRef(likeRef)`). -/
def getLike : List (String × LikeDoc) → String → Option LikeDoc
  | [], _ => none
  | (k, v) :: rest, uid => if k == uid then some v else getLike rest uid

/-- `setDoc(likeRef, d)`: overwrite the viewer's reaction document,
creating it if absent. -/
def setLike : List (String × LikeDoc) → String → LikeDoc → List (String × LikeDoc)
  | [], uid, d => [(uid, d)]
  | (k, v) :: rest, uid, d =>
    if k == uid then (uid, d) :: rest else (k, v) :: setLike rest uid d

/-- The dynamic-field counter update `[a + "Count"]: increment(delta)`. -/
def bumpCount (p : ReactionState) (a : ReactAction) (delta : Int) : ReactionState :=
  match a with
  | ReactAction.like => { p with likeCount := p.likeCount + delta }
  | ReactAction.dislike => { p with dislikeCount := p.dislikeCount + delta }

/-- `handleLikeDislike` (`src/src/pages/Room.tsx` lines 310-372), acting
on one photo's remote state (the path where the photo is present in the
loaded list; the source's early return for an unknown photo id changes
nothing).  Branches of the source:
* reaction document exists and its action equals the request — toggle
  off: rewrite the document with `action: null` and decrement that
  counter;
* reaction document exists with the other (non-null) action — swap:
  rewrite the document and move one count from the old counter to the
  new one;
* reaction document exists with a `null` action — neither
  `currentAction === action` nor `else if (currentAction)` fires, so the
  call does nothing at all;
* no reaction document — create it and increment the requested counter. -/
def handleLikeDislike (p : ReactionState) (uid : String) (action : ReactAction) (t : Nat) :
    ReactionState :=
  match getLike p.likes uid with
  | some likeDoc =>
    match likeDoc.action with
    | some cur =>
      if cur = action then
        bumpCount { p with likes := setLike p.likes uid { action := none, timestamp := t } }
          action (-1)
      else
        bumpCount
          (bumpCount
            { p with likes := setLike p.likes uid { action := some action, timestamp := t } }
            cur (-1))
          action 1
    | none => p
  | none =>
    bumpCount { p with likes := setLike p.likes uid { action := some action, timestamp := t } }
      action 1

/-- The viewer's resolved `userAction` as `loadPhotos` computes it
(`src/src/pages/Room.tsx` lines 144-151): absent document and `null`
action both resolve to "no reaction". -/
def userActionOf (p : ReactionState) (uid : String) : Option ReactAction :=
  (getLike p.likes uid).bind LikeDoc.action

/-- Reaction state of a freshly uploaded photo: `uploadPhoto` writes
`likeCount: 0, dislikeCount: 0` and no `likes` documents. -/
def initialReactionState : ReactionState :=
  { likeCount := 0, dislikeCount := 0, likes := [] }

/-- A sequence of `handleLikeDislike` calls
(viewer id, action, timestamp), applied in order. -/
def applyReactions (p : ReactionState) (calls : List (String × ReactAction × Nat)) :
    ReactionState :=
  calls.foldl (fun s c => handleLikeDislike s c.1 c.2.1 c.2.2) p

/-! ## Concrete fixtures used by witnesses and counterexamples -/

/-- The fixed placeholder viewer identity of the source
(`const userId = "mock-user-123"` in `src/src/pages/Room.tsx`). -/
def uidConst : String := "mock-user-123"

/-- Reaction state reached after a toggle-off: counters restored to zero,
but the viewer's reaction document persists with a `null` action. -/
def clearedState : ReactionState :=
  { likeCount := 0, dislikeCount := 0, likes := [(uidConst, { action := none, timestamp := 3 })] }

def strTrip : String := "Trip"

def strAbc : String := "abc"

def strXyz : String := "xyz"

def strSpace : String := " "

def pubRoom : RoomData := { name := strTrip, isPrivate := false, password := none, photoCount := 0 }

def privRoomAbc : RoomData :=
  { name := strTrip, isPrivate := true, password := some strAbc, photoCount := 0 }

/-- A stored room document marked private whose `password` field is
absent. -/
def rawPrivNoPw : RawRoom :=
  { name := some strTrip, isPrivate := some true, password := none, photoCount := some 0 }

def emptyStore : RoomStore := { photoCount := 0, photos := [] }

/-- An image file one byte over the 750KB inline-payload limit. -/
def bigFile : FileMeta :=
  { name := strTrip, ftype := imageMime, size := 750 * 1024 + 1, content := strAbc }

/-- Viewer-action fetch that finds no reaction documents. -/
def uaNone : String → Option ReactAction := fun _ => none

def goodDoc : RawPhoto :=
  { id := strAbc, base64 := some strXyz, name := some strTrip,
    uploadedAt := some (some 3), uploader := some strTrip,
    likeCount := some 2, dislikeCount := some 1 }

/-- A malformed photo document: its `name` field is missing. -/
def badDoc : RawPhoto :=
  { id := strXyz, base64 := some strXyz, name := none,
    uploadedAt := some (some 4), uploader := none,
    likeCount := none, dislikeCount := none }

/-- A photo document whose `uploadedAt` field is present but does not
parse as a timestamp. -/
def fallbackDoc : RawPhoto :=
  { id := strTrip, base64 := some strXyz, name := some strTrip,
    uploadedAt := some none, uploader := none,
    likeCount := none, dislikeCount := none }

def demoDocs : List RawPhoto := [goodDoc, badDoc, fallbackDoc]

/-- A valid image file (image MIME type, far under the size limit) whose
filename happens to be the empty string. -/
def emptyNameFile : FileMeta :=
  { name := emptyStr, ftype := imageMime, size := 10, content := strAbc }

def fileA : FileMeta := { name := strAbc, ftype := imageMime, size := 100, content := strAbc }

def fileB : FileMeta := { name := strXyz, ftype := imageMime, size := 200, content := strXyz }

def batchFiles : List FileMeta := [fileA, fileB]

/-- A `likes` subcollection in which the fixed viewer has an active
"like". -/
def swapFixtureLikes : List (String × LikeDoc) :=
  [(uidConst, { action := some ReactAction.like, timestamp := 0 })]

/-! ## Invariant definitions for the reaction counters -/

/-- Whether a reaction entry's action equals `a`. -/
def likeEntryP (a : ReactAction) (e : String × LikeDoc) : Bool := e.2.action == some a

/-- Number of reaction documents whose action is `a`. -/
def countActs (a : ReactAction) (l : List (String × LikeDoc)) : Nat := l.countP (likeEntryP a)

/-- The denormalized counters agree with the reaction documents: each
counter equals the number of viewers currently holding that action. -/
def countsInv (p : ReactionState) : Prop :=
  p.likeCount = (countActs ReactAction.like p.likes : Int)
  ∧ p.dislikeCount = (countActs ReactAction.dislike p.likes : Int)

/-! ## Helper lemmas -/

/-- Overwriting a viewer's reaction document makes it the one read
back. -/
theorem getLike_setLike_self (l : List (String × LikeDoc)) (uid : String) (d : LikeDoc) :
    getLike (setLike l uid d) uid = some d := by
  induction l with
  | nil => simp [setLike, getLike]
  | cons e rest ih =>
    obtain ⟨k, v⟩ := e
    by_cases hk : k = uid
    · simp [setLike, getLike, hk]
    · simp [setLike, getLike, hk, ih]

/-- Erasing one occurrence of an element that fails the filter does not
change the filtered list. -/
theorem filter_erase_of_not_pass {α : Type} [DecidableEq α] (p : α → Bool) (a : α)
    (h : p a = false) : ∀ l : List α, (l.erase a).filter p = l.filter p := by
  intro l
  induction l with
  | nil => rfl
  | cons x xs ih =>
    by_cases hx : x = a
    · subst hx
      simp [List.erase_cons, List.filter_cons, h]
    · have hba : (x == a) = false := beq_eq_false_iff_ne.mpr hx
      simp [List.erase_cons, hba, List.filter_cons, ih]

/-- A file over the 750KB limit fails the upload filter. -/
theorem fileAccepted_false_of_oversized (f : FileMeta) (h : 750 * 1024 < f.size) :
    fileAccepted f = false := by
  simp [fileAccepted, Nat.not_le.mpr h]

theorem length_filterMap_eq_countP {α β : Type} (f : α → Option β) :
    ∀ l : List α, (l.filterMap f).length = l.countP (fun a => (f a).isSome) := by
  intro l
  induction l with
  | nil => rfl
  | cons x xs ih =>
    cases hx : f x with
    | none => simp [List.filterMap_cons, hx, ih, List.countP_cons]
    | some y => simp [List.filterMap_cons, hx, ih, List.countP_cons]

/-- A raw photo document yields a listing entry exactly when it passes
the validity check. -/
theorem processRecord_isSome (now : Nat) (ua : String → Option ReactAction) (r : RawPhoto) :
    (processRecord now ua r).isSome = isValidRecord r := by
  unfold processRecord
  split <;> simp_all

/-- The listing has exactly one entry per valid raw document. -/
theorem loadPhotos_length (now : Nat) (ua : String → Option ReactAction) (docs : List RawPhoto) :
    (loadPhotos now ua docs).length = docs.countP isValidRecord := by
  unfold loadPhotos
  rw [length_filterMap_eq_countP]
  have h1 : (listQuery docs).countP (fun a => (processRecord now ua a).isSome)
      = (listQuery docs).countP isValidRecord := by
    apply List.countP_congr
    intro a _
    simp [processRecord_isSome]
  rw [h1]
  exact (List.perm_insertionSort byTimeDesc docs).countP_eq isValidRecord

/-- The data URL written for an uploaded file is never the empty string
(it starts with "data:"). -/
theorem dataURL_ne_empty (f : FileMeta) : dataURL f ≠ emptyStr := by
  intro h
  have h2 := congrArg String.data h
  simp [dataURL, String.append, dataColon, emptyStr] at h2

/-- The document written for an uploaded file with a non-empty filename
passes the listing validity check. -/
theorem mkPhotoRecord_valid (t : Nat) (f : FileMeta) (hn : f.name ≠ emptyStr) :
    isValidRecord (mkPhotoRecord t f) = true := by
  have hd : dataURL f ≠ emptyStr := dataURL_ne_empty f
  simp [isValidRecord, mkPhotoRecord, jsStrTruthy, emptyStr] at hn hd ⊢
  exact ⟨hd, hn⟩

/-- Pairwise relations survive `filterMap` when the mapping transfers
the relation on members. -/
theorem pairwise_filterMap_mem {α β : Type} {R : α → α → Prop} {S : β → β → Prop}
    (f : α → Option β) :
    ∀ l : List α,
      (∀ a ∈ l, ∀ b ∈ l, R a b → ∀ x y, f a = some x → f b = some y → S x y) →
      l.Pairwise R → (l.filterMap f).Pairwise S := by
  intro l
  induction l with
  | nil =>
    intro _ _
    simp
  | cons a tl ih =>
    intro hcond hp
    obtain ⟨ha, htl⟩ := List.pairwise_cons.mp hp
    have ihtl := ih
      (fun x hx y hy hr => hcond x (List.mem_cons_of_mem a hx) y (List.mem_cons_of_mem a hy) hr)
      htl
    cases hfa : f a with
    | none => simpa [List.filterMap_cons, hfa] using ihtl
    | some x =>
      rw [List.filterMap_cons, hfa]
      refine List.pairwise_cons.mpr ⟨?_, ihtl⟩
      intro y hy
      obtain ⟨b, hb, hfb⟩ := List.mem_filterMap.mp hy
      exact hcond a (List.mem_cons_self a tl) b (List.mem_cons_of_mem a hb) (ha b hb) x y hfa hfb

/-- A parseable stored timestamp is the one shown on the listing entry. -/
theorem processRecord_uploadedAt (now : Nat) (ua : String → Option ReactAction)
    (r : RawPhoto) (ts : Nat) (h : r.uploadedAt = some (some ts)) :
    ∀ p : PhotoView, processRecord now ua r = some p → p.uploadedAt = ts := by
  intro p hp
  unfold processRecord at hp
  split at hp
  · rw [Option.some_inj] at hp
    subst hp
    simp [h]
  · exact absurd hp (by simp)

theorem sortKey_of_parseable (r : RawPhoto) (ts : Nat) (h : r.uploadedAt = some (some ts)) :
    sortKey r = ts := by
  simp [sortKey, h]

/-- When every stored document's timestamp parses, the listing comes out
ordered newest-first by `uploadedAt`. -/
theorem loadPhotos_pairwise (now : Nat) (ua : String → Option ReactAction)
    (docs : List RawPhoto) (hall : ∀ r ∈ docs, ∃ ts, r.uploadedAt = some (some ts)) :
    List.Pairwise (fun p q : PhotoView => q.uploadedAt ≤ p.uploadedAt)
      (loadPhotos now ua docs) := by
  unfold loadPhotos
  have hs : List.Pairwise byTimeDesc (listQuery docs) :=
    List.sorted_insertionSort byTimeDesc docs
  refine pairwise_filterMap_mem (processRecord now ua) (listQuery docs) ?_ hs
  intro a hamem b hbmem hr x y hfa hfb
  have hamem2 : a ∈ docs := ((List.perm_insertionSort byTimeDesc docs).mem_iff).mp hamem
  have hbmem2 : b ∈ docs := ((List.perm_insertionSort byTimeDesc docs).mem_iff).mp hbmem
  obtain ⟨ta, hta⟩ := hall a hamem2
  obtain ⟨tb, htb⟩ := hall b hbmem2
  have hxa : x.uploadedAt = ta := processRecord_uploadedAt now ua a ta hta x hfa
  have hyb : y.uploadedAt = tb := processRecord_uploadedAt now ua b tb htb y hfb
  have hkey : sortKey b ≤ sortKey a := hr
  rw [sortKey_of_parseable a ta hta, sortKey_of_parseable b tb htb] at hkey
  rw [hxa, hyb]
  exact hkey

/-- Count bookkeeping of `setDoc` on a `likes` subcollection: writing
the viewer's document trades that viewer's old contribution for the new
one and touches nothing else. -/
theorem countP_setLike (f : String × LikeDoc → Bool) (uid : String) (nd : LikeDoc) :
    ∀ l : List (String × LikeDoc),
      (setLike l uid nd).countP f
        + (match getLike l uid with
           | some d => if f (uid, d) then 1 else 0
           | none => 0)
      = l.countP f + (if f (uid, nd) then 1 else 0) := by
  intro l
  induction l with
  | nil => simp [setLike, getLike, List.countP_cons]
  | cons e rest ih =>
    obtain ⟨k, v⟩ := e
    by_cases hk : k = uid
    · subst hk
      simp only [setLike, getLike, beq_self_eq_true, if_true, List.countP_cons]
      omega
    · have hkb : (k == uid) = false := beq_eq_false_iff_ne.mpr hk
      simp only [setLike, getLike, hkb, Bool.false_eq_true, if_false, List.countP_cons]
      omega

/-- Every branch of `handleLikeDislike` keeps the counters equal to the
number of viewers holding each action. -/
theorem countsInv_handleLikeDislike (p : ReactionState) (uid : String) (action : ReactAction)
    (t : Nat) (h : countsInv p) : countsInv (handleLikeDislike p uid action t) := by
  obtain ⟨hl, hd⟩ := h
  cases hg : getLike p.likes uid with
  | none =>
    have hcl := countP_setLike (likeEntryP ReactAction.like) uid
      { action := some action, timestamp := t } p.likes
    have hcd := countP_setLike (likeEntryP ReactAction.dislike) uid
      { action := some action, timestamp := t } p.likes
    rw [hg] at hcl hcd
    cases action <;>
      · constructor <;>
          simp_all [handleLikeDislike, hg, bumpCount, countsInv, countActs, likeEntryP] <;>
          omega
  | some d =>
    cases ha : d.action with
    | none =>
      simp only [handleLikeDislike, hg, ha]
      exact ⟨hl, hd⟩
    | some cur =>
      by_cases hc : cur = action
      · subst hc
        have hcl := countP_setLike (likeEntryP ReactAction.like) uid
          { action := none, timestamp := t } p.likes
        have hcd := countP_setLike (likeEntryP ReactAction.dislike) uid
          { action := none, timestamp := t } p.likes
        rw [hg] at hcl hcd
        cases cur <;>
          · constructor <;>
              simp_all [handleLikeDislike, hg, ha, bumpCount, countsInv, countActs, likeEntryP] <;>
              omega
      · have hcl := countP_setLike (likeEntryP ReactAction.like) uid
          { action := some action, timestamp := t } p.likes
        have hcd := countP_setLike (likeEntryP ReactAction.dislike) uid
          { action := some action, timestamp := t } p.likes
        rw [hg] at hcl hcd
        cases action <;> cases cur <;> first
          | exact absurd rfl hc
          | constructor <;>
              simp_all [handleLikeDislike, hg, ha, hc, bumpCount, countsInv, countActs,
                likeEntryP] <;>
              omega

/-- The counter invariant is preserved by any sequence of reaction
calls. -/
theorem countsInv_applyReactions (calls : List (String × ReactAction × Nat)) :
    ∀ p : ReactionState, countsInv p → countsInv (applyReactions p calls) := by
  induction calls with
  | nil =>
    intro p h
    exact h
  | cons c rest ih =>
    intro p h
    exact ih _ (countsInv_handleLikeDislike p c.1 c.2.1 c.2.2 h)

/-! ## Claim theorems -/

/-- Claim C1 (code bug evaluation).  The claim says a viewer with no
prior reaction — including the state reached after a toggle-off — gets a
new reaction and a counter increment.  In the state reached after a
toggle-off the reaction document still exists with a `null` action, the
viewer's resolved `userAction` is absent, and yet `handleLikeDislike`
leaves the state completely unchanged: neither branch of the
`currentAction === action` / `else if (currentAction)` conditional fires,
so no reaction is created and no counter moves. -/
theorem handleLikeDislike_cleared_state_noop :
    userActionOf clearedState uidConst = none
    ∧ clearedState.likeCount = 0 ∧ clearedState.dislikeCount = 0
    ∧ handleLikeDislike clearedState uidConst ReactAction.like 7 = clearedState := by
  decide

/-- Claim C2.  `checkAccess` returns true for a non-private room
whatever the attempted secret (including an absent one); for a private
room it returns true iff the attempted secret is exactly equal to the
stored secret — plain equality of optional strings, hence case-sensitive
and untrimmed. -/
theorem checkAccess_public_and_private (room : RoomData) (attempt : Option String) :
    (room.isPrivate = false → checkAccess room attempt = true)
    ∧ (room.isPrivate = true → (checkAccess room attempt = true ↔ attempt = room.password)) := by
  constructor
  · intro h
    simp [checkAccess, h]
  · intro h
    simp [checkAccess, h]

/-- Witness for claim C2 at concrete rooms: a public room admits a
wrong secret, and a private room admits the matching secret. -/
theorem checkAccess_public_and_private_witness :
    checkAccess pubRoom (some strXyz) = true ∧ checkAccess privRoomAbc (some strAbc) = true :=
  ⟨(checkAccess_public_and_private pubRoom (some strXyz)).1 rfl,
   ((checkAccess_public_and_private privRoomAbc (some strAbc)).2 rfl).mpr rfl⟩

/-- Counterexample to claim C3 as stated: the secret " " is non-empty,
yet `createRoom` rejects the private-room request and writes no record
(the source requires `password.trim()` to be truthy), so no stored
record with that secret exists. -/
theorem createRoom_blank_secret_rejected :
    strSpace ≠ emptyStr ∧ createRoom 1 strTrip strSpace true = none := by
  decide

/-- Claim C3 (amended).  `createRoom` rejects an empty or
all-whitespace name, and rejects a private-room request whose secret
trims to empty — in both cases no record is written; with a secret that
is non-empty after trimming, the stored private room record has
`isPrivate = true` and the given (untrimmed) secret.  The mock variant
likewise bails out on a blank name (and never writes records at all). -/
theorem createRoom_validation (t : Nat) (roomName pw : String) (isPriv : Bool) :
    (jsTrim roomName = emptyStr → createRoom t roomName pw isPriv = none)
    ∧ (isPriv = true → jsTrim pw = emptyStr → createRoom t roomName pw isPriv = none)
    ∧ (jsTrim roomName ≠ emptyStr → jsTrim pw ≠ emptyStr →
        createRoom t roomName pw true =
          some { name := jsTrim roomName, isPrivate := true, password := some pw,
                 createdAt := t, photoCount := 0 })
    ∧ (jsTrim roomName = emptyStr → mockCreateRoom roomName pw isPriv = none) := by
  refine ⟨?_, ?_, ?_, ?_⟩
  · intro h
    simp [createRoom, h]
  · intro hp h
    simp [createRoom, h, hp]
  · intro h1 h2
    simp [createRoom, h1, h2]
  · intro h
    simp [mockCreateRoom, h]

/-- Witness for claim C3 at concrete inputs: empty name rejected, empty
secret rejected, and a private room with secret "abc" stored with
`isPrivate = true` and that secret. -/
theorem createRoom_validation_witness :
    createRoom 1 emptyStr strAbc true = none
    ∧ createRoom 1 strTrip emptyStr true = none
    ∧ createRoom 1 strTrip strAbc true =
        some { name := jsTrim strTrip, isPrivate := true, password := some strAbc,
               createdAt := 1, photoCount := 0 }
    ∧ mockCreateRoom emptyStr strAbc true = none :=
  ⟨(createRoom_validation 1 emptyStr strAbc true).1 (by decide),
   (createRoom_validation 1 strTrip emptyStr true).2.1 rfl (by decide),
   (createRoom_validation 1 strTrip strAbc true).2.2.1 (by decide) (by decide),
   (createRoom_validation 1 emptyStr strAbc true).2.2.2 (by decide)⟩

/-- Claim C4.  A file over 750KB submitted to the inline-payload upload
handler is rejected: the whole outcome (stored documents and the
`photoCount` increment alike) equals the outcome of the same batch with
that file removed, so no record is stored for it and the counter is not
incremented on its account. -/
theorem handleFileUpload_oversized_ignored (store : RoomStore) (t : Nat)
    (files : List FileMeta) (f : FileMeta) (_hmem : f ∈ files) (hsize : 750 * 1024 < f.size) :
    handleFileUpload store t files = handleFileUpload store t (files.erase f) := by
  have hfa : fileAccepted f = false := fileAccepted_false_of_oversized f hsize
  simp [handleFileUpload, filter_erase_of_not_pass fileAccepted f hfa files]

/-- Witness for claim C4: a 750KB+1 image file in a singleton batch is
ignored entirely. -/
theorem handleFileUpload_oversized_ignored_witness :
    handleFileUpload emptyStore 3 [bigFile]
      = handleFileUpload emptyStore 3 ([bigFile].erase bigFile) :=
  handleFileUpload_oversized_ignored emptyStore 3 [bigFile] bigFile (by decide) (by decide)

/-- Counterexample to claim C5 as stated: a batch consisting of one
image-typed file of 10 bytes — a "valid image" under the claim's own
definition — whose filename is empty is stored and counted
(`photoCount` goes up by N = 1), but the subsequent listing gains zero
entries, because `loadPhotos` drops records whose `name` field is falsy. -/
theorem uploadBatch_empty_filename_not_listed :
    strStartsWith emptyNameFile.ftype imageMime = true
    ∧ emptyNameFile.size ≤ 750 * 1024
    ∧ (handleFileUpload emptyStore 5 [emptyNameFile]).photoCount = emptyStore.photoCount + 1
    ∧ loadPhotos 9 uaNone emptyStore.photos = []
    ∧ loadPhotos 9 uaNone (handleFileUpload emptyStore 5 [emptyNameFile]).photos = [] := by
  decide

/-- Claim C5 (amended).  For a batch of N valid images — image-typed,
each at most 750KB, each with a non-empty filename — uploaded in one
user action into a store whose existing documents carry parseable
timestamps: `photoCount` is incremented by exactly N in a single batch
increment, the subsequent listing has exactly N additional entries, and
the listing is ordered newest-first by `uploadedAt`. -/
theorem uploadBatch_count_and_listing (store : RoomStore) (t now : Nat)
    (ua : String → Option ReactAction) (files : List FileMeta)
    (hfiles : ∀ f ∈ files,
      strStartsWith f.ftype imageMime = true ∧ f.size ≤ 750 * 1024 ∧ f.name ≠ emptyStr)
    (hold : ∀ r ∈ store.photos, ∃ ts, r.uploadedAt = some (some ts)) :
    (handleFileUpload store t files).photoCount = store.photoCount + (files.length : Int)
    ∧ (loadPhotos now ua (handleFileUpload store t files).photos).length
        = (loadPhotos now ua store.photos).length + files.length
    ∧ List.Pairwise (fun p q : PhotoView => q.uploadedAt ≤ p.uploadedAt)
        (loadPhotos now ua (handleFileUpload store t files).photos) := by
  have hacc : files.filter fileAccepted = files := by
    apply List.filter_eq_self.mpr
    intro f hf
    simp [fileAccepted, (hfiles f hf).1, (hfiles f hf).2.1]
  refine ⟨?_, ?_, ?_⟩
  · simp [handleFileUpload, hacc]
  · rw [loadPhotos_length, loadPhotos_length]
    simp only [handleFileUpload, hacc]
    rw [List.countP_append, List.countP_map]
    have hval : files.countP (isValidRecord ∘ mkPhotoRecord t) = files.length := by
      apply List.countP_eq_length.mpr
      intro f hf
      exact mkPhotoRecord_valid t f (hfiles f hf).2.2
    rw [hval]
  · apply loadPhotos_pairwise
    intro r hr
    simp only [handleFileUpload, hacc] at hr
    rcases List.mem_append.mp hr with hr1 | hr2
    · exact hold r hr1
    · obtain ⟨f, _, rfl⟩ := List.mem_map.mp hr2
      exact ⟨t, rfl⟩

/-- Witness for claim C5: a two-file batch into an empty store bumps
`photoCount` by 2 and yields a listing with 2 additional entries. -/
theorem uploadBatch_count_and_listing_witness :
    (handleFileUpload emptyStore 5 batchFiles).photoCount
        = emptyStore.photoCount + (batchFiles.length : Int)
    ∧ (loadPhotos 9 uaNone (handleFileUpload emptyStore 5 batchFiles).photos).length
        = (loadPhotos 9 uaNone emptyStore.photos).length + batchFiles.length :=
  ⟨(uploadBatch_count_and_listing emptyStore 5 9 uaNone batchFiles (by decide)
      (fun r hr => absurd hr (List.not_mem_nil r))).1,
   (uploadBatch_count_and_listing emptyStore 5 9 uaNone batchFiles (by decide)
      (fun r hr => absurd hr (List.not_mem_nil r))).2.1⟩

/-- Claim C6.  Starting from a freshly created photo (both counters
zero, no reaction documents), one "like" call yields `likeCount 1` with
`userAction = like`; a second "like" call in a row toggles it off,
restoring both counters to zero with `userAction` absent. -/
theorem setReaction_like_twice_toggles_off (uid : String) (t1 t2 : Nat) :
    (handleLikeDislike initialReactionState uid ReactAction.like t1).likeCount = 1
    ∧ (handleLikeDislike initialReactionState uid ReactAction.like t1).dislikeCount = 0
    ∧ userActionOf (handleLikeDislike initialReactionState uid ReactAction.like t1) uid
        = some ReactAction.like
    ∧ (handleLikeDislike (handleLikeDislike initialReactionState uid ReactAction.like t1)
        uid ReactAction.like t2).likeCount = 0
    ∧ (handleLikeDislike (handleLikeDislike initialReactionState uid ReactAction.like t1)
        uid ReactAction.like t2).dislikeCount = 0
    ∧ userActionOf (handleLikeDislike (handleLikeDislike initialReactionState uid
        ReactAction.like t1) uid ReactAction.like t2) uid = none := by
  simp [handleLikeDislike, initialReactionState, getLike, setLike, userActionOf, bumpCount]

/-- Claim C7.  From the state `{likeCount 1, dislikeCount 0,
userAction like}`, a "dislike" call swaps the reaction: the old counter
is decremented and the new one incremented in the same call, yielding
`{likeCount 0, dislikeCount 1, userAction dislike}`. -/
theorem setReaction_swap (likes : List (String × LikeDoc)) (uid : String) (d : LikeDoc) (t : Nat)
    (hg : getLike likes uid = some d) (ha : d.action = some ReactAction.like) :
    (handleLikeDislike ⟨1, 0, likes⟩ uid ReactAction.dislike t).likeCount = 0
    ∧ (handleLikeDislike ⟨1, 0, likes⟩ uid ReactAction.dislike t).dislikeCount = 1
    ∧ userActionOf (handleLikeDislike ⟨1, 0, likes⟩ uid ReactAction.dislike t) uid
        = some ReactAction.dislike := by
  simp [handleLikeDislike, hg, ha, bumpCount, userActionOf, getLike_setLike_self]

/-- Witness for claim C7 at a concrete one-viewer `likes`
subcollection. -/
theorem setReaction_swap_witness :
    (handleLikeDislike ⟨1, 0, swapFixtureLikes⟩ uidConst ReactAction.dislike 4).likeCount = 0
    ∧ (handleLikeDislike ⟨1, 0, swapFixtureLikes⟩ uidConst ReactAction.dislike 4).dislikeCount = 1
    ∧ userActionOf (handleLikeDislike ⟨1, 0, swapFixtureLikes⟩ uidConst ReactAction.dislike 4)
        uidConst = some ReactAction.dislike :=
  setReaction_swap swapFixtureLikes uidConst
    { action := some ReactAction.like, timestamp := 0 } 4 (by decide) (by decide)

/-- Claim C8.  The listing never fails as a whole: it has exactly one
entry per record passing the required-field check (every record failing
it — missing or falsy `base64`, `name` or `uploadedAt` — is skipped),
and a record whose timestamp is present but unparseable is retained
with the current time as its `uploadedAt` rather than rejected. -/
theorem listPhotos_skips_malformed (now : Nat) (ua : String → Option ReactAction)
    (docs : List RawPhoto) :
    (loadPhotos now ua docs).length = docs.countP isValidRecord
    ∧ (∀ r : RawPhoto, isValidRecord r = false → processRecord now ua r = none)
    ∧ (∀ r : RawPhoto, isValidRecord r = true → r.uploadedAt = some none →
        (processRecord now ua r).map PhotoView.uploadedAt = some now) := by
  refine ⟨loadPhotos_length now ua docs, ?_, ?_⟩
  · intro r h
    simp [processRecord, h]
  · intro r h ht
    simp [processRecord, h, ht]

/-- Witness for claim C8: of three concrete documents (one fully valid,
one missing its name, one with an unparseable timestamp), the listing
keeps exactly the two valid ones and the unparseable timestamp falls
back to "now". -/
theorem listPhotos_skips_malformed_witness :
    (loadPhotos 7 uaNone demoDocs).length = demoDocs.countP isValidRecord
    ∧ processRecord 7 uaNone badDoc = none
    ∧ (processRecord 7 uaNone fallbackDoc).map PhotoView.uploadedAt = some 7
    ∧ demoDocs.countP isValidRecord = 2 :=
  ⟨(listPhotos_skips_malformed 7 uaNone demoDocs).1,
   (listPhotos_skips_malformed 7 uaNone demoDocs).2.1 badDoc (by decide),
   (listPhotos_skips_malformed 7 uaNone demoDocs).2.2 fallbackDoc (by decide) (by decide),
   by decide⟩

/-- Claim C9.  Starting from a freshly created photo (both counters
zero), every sequence of `handleLikeDislike` calls — any viewers, any
actions, any timestamps — leaves both `likeCount` and `dislikeCount`
non-negative. -/
theorem reaction_counts_nonneg (calls : List (String × ReactAction × Nat)) :
    0 ≤ (applyReactions initialReactionState calls).likeCount
    ∧ 0 ≤ (applyReactions initialReactionState calls).dislikeCount := by
  have h0 : countsInv initialReactionState := by
    constructor <;> simp [initialReactionState, countActs]
  obtain ⟨h1, h2⟩ := countsInv_applyReactions calls initialReactionState h0
  constructor
  · rw [h1]
    exact Int.natCast_nonneg _
  · rw [h2]
    exact Int.natCast_nonneg _

/-- Claim C10.  A stored room marked private whose `password` field is
absent opens with no attempted secret: the gate compares an absent
attempt against an absent stored secret and passes, so loading reaches
the ready state. -/
theorem private_room_missing_secret_opens (d : RawRoom)
    (hp : d.isPrivate = some true) (hs : d.password = none) :
    loadRoomData (some d) none = LoadResult.ready (roomFromRaw d)
    ∧ (roomFromRaw d).isPrivate = true := by
  constructor
  · simp [loadRoomData, roomFromRaw, checkAccess, hp, hs]
  · simp [roomFromRaw, hp]

/-- Witness for claim C10 at a concrete private room document with no
stored secret. -/
theorem private_room_missing_secret_opens_witness :
    loadRoomData (some rawPrivNoPw) none = LoadResult.ready (roomFromRaw rawPrivNoPw)
    ∧ (roomFromRaw rawPrivNoPw).isPrivate = true :=
  private_room_missing_secret_opens rawPrivNoPw rfl rfl
